import Mathlib

/-!
Verification of the Spatial Interaction and Session Controller of the
mcpgame repository, shallowly embedded from src/main.js (the active,
second copy of each function in that file).  Coordinates and times are
modelled with exact rationals and integers; JavaScript squared-distance
comparisons `dist < r` are expressed as `distSq < r^2`, which is
equivalent because both sides are nonnegative.
-/

namespace MCPGame

/-! ## Collision geometry and avatar locomotion (main.js, updatePlayerMovement, lines 874-1005) -/

/-- A horizontal position: the x and z coordinates of the avatar.  The y
coordinate never feeds into any collision test in the source (it is set
from the indoor flag at the end of the frame), so it is not modelled. -/
structure Vec2 where
  x : ℚ
  z : ℚ
deriving DecidableEq, Repr

/-- Squared planar distance, mirroring `new THREE.Vector2(dx, dz).length()`
compared against a radius; comparisons are done on squares. -/
def distSq (p q : Vec2) : ℚ := (p.x - q.x) ^ 2 + (p.z - q.z) ^ 2

/-- JS clamp `Math.max(lo, Math.min(hi, v))` (main.js 906-907). -/
def clampCoord (lo hi v : ℚ) : ℚ := max lo (min hi v)

/-- House-interior membership test of the candidate position
(main.js 916-918): `innerSize/2 = (20 - 2*1)/2 = 9`. -/
def inHouse (p : Vec2) : Prop :=
  (-9 ≤ p.x ∧ p.x ≤ 9) ∧ (-9 ≤ p.z ∧ p.z ≤ 9)

instance (p : Vec2) : Decidable (inHouse p) := by
  unfold inHouse; infer_instance

/-- Interior wall clamping (main.js 921-936): push back along the violated
axis to `halfInnerSize - 0.3 = 8.7`; the front wall (z = -8.7) is passable
inside the door gap `-1.5 ≤ x ≤ 1.5` (frontDoorWidth = 3).  `Math.sign`
is only applied to a coordinate of magnitude above 8.7, hence never to 0. -/
def insideAdjust (c : Vec2) : Vec2 :=
  let x1 : ℚ := if 8.7 < |c.x| then (if 0 ≤ c.x then 8.7 else -8.7) else c.x
  let z1 : ℚ := if 8.7 < c.z then 8.7 else c.z
  let z2 : ℚ := if z1 < -8.7 ∧ (x1 < -1.5 ∨ 1.5 < x1) then -8.7 else z1
  ⟨x1, z2⟩

/-- Exterior hull clamping (main.js 939-966): only applies within the
near-house band `[-10.3, 10.3]` on both axes; the front wall band
`-10.3 < z < -9.7` is passable inside the door gap, other wall bands push
the respective coordinate out to magnitude 10.3.  The branch structure is
the exact if/else-if chain of the source. -/
def outsideAdjust (c : Vec2) : Vec2 :=
  if (-10.3 ≤ c.x ∧ c.x ≤ 10.3) ∧ (-10.3 ≤ c.z ∧ c.z ≤ 10.3) then
    if c.z < -9.7 ∧ -10.3 < c.z then
      (if -1.5 ≤ c.x ∧ c.x ≤ 1.5 then c else ⟨c.x, -10.3⟩)
    else if 9.7 < c.z ∧ c.z < 10.3 then ⟨c.x, 10.3⟩
    else if c.x < -9.7 ∧ -10.3 < c.x then ⟨-10.3, c.z⟩
    else if 9.7 < c.x ∧ c.x < 10.3 then ⟨10.3, c.z⟩
    else c
  else c

/-- Tree collision test (main.js 972-980): the avatar collides when its
planar distance to some tree is below 1.2, i.e. squared distance below
1.44. -/
def collidesTree (trees : List Vec2) (p : Vec2) : Prop :=
  ∃ t ∈ trees, distSq p t < 1.44

instance (trees : List Vec2) (p : Vec2) : Decidable (collidesTree trees p) := by
  unfold collidesTree; infer_instance

/-- Candidate position after applying the world-space displacement and the
world-bound clamp to `[-WORLD_SIZE/2, WORLD_SIZE/2] = [-50, 50]`
(main.js 902-907).  `disp` is the already-computed world-space move vector
`moveDirection.normalize() * PLAYER_MOVE_SPEED * deltaTime` rotated by the
yaw; quantifying over all rational `disp` covers every key combination,
yaw and time delta. -/
def candidatePos (prev disp : Vec2) : Vec2 :=
  ⟨clampCoord (-50) 50 (prev.x + disp.x), clampCoord (-50) 50 (prev.z + disp.z)⟩

/-- One locomotion step of `updatePlayerMovement` (main.js 895-997),
restricted to its position effect: clamp the displaced position to the
world bounds, then either apply the interior wall clamps (candidate inside
the house) or the exterior hull clamps followed by the tree test, which on
a hit restores the full pre-move position (`player.position.copy(previousPosition)`). -/
def movePlayer (trees : List Vec2) (prev disp : Vec2) : Vec2 :=
  let c := candidatePos prev disp
  if inHouse c then insideAdjust c
  else
    let w := outsideAdjust c
    if collidesTree trees w then prev else w

/-- The rejection-sampling constraint of `createTrees` (main.js 1231-1240):
every generated tree satisfies `(|x| > 3 or z < -10 or z > 25)` and
`(sqrt(x^2 + z^2) > 25 or z > 15)`; the square root is expressed through
its square. -/
def validTreePos (t : Vec2) : Prop :=
  (3 < |t.x| ∨ t.z < -10 ∨ 25 < t.z) ∧ (625 < t.x ^ 2 + t.z ^ 2 ∨ 15 < t.z)

instance (t : Vec2) : Decidable (validTreePos t) := by
  unfold validTreePos; infer_instance

/-! Geometric helper lemmas. -/

theorem clampCoord_mem (lo hi v : ℚ) (h : lo ≤ hi) :
    lo ≤ clampCoord lo hi v ∧ clampCoord lo hi v ≤ hi := by
  unfold clampCoord
  constructor
  · exact le_max_left _ _
  · exact max_le h (min_le_left _ _)

theorem sep_of_sq_large (a b : ℚ) (ha : 625 / 2 ≤ a ^ 2) (hb : b ^ 2 ≤ 81) :
    1.44 ≤ (a - b) ^ 2 := by
  nlinarith [sq_nonneg (a - 2 * b)]

/-- A tree satisfying the placement constraint never comes within the
collision radius of any point of the (closed) inner house square. -/
theorem validTree_far_from_house (t p : Vec2) (ht : validTreePos t)
    (hx : |p.x| ≤ 9) (hz : |p.z| ≤ 9) : 1.44 ≤ distSq p t := by
  have hx2 : p.x ^ 2 ≤ 81 := by
    rcases abs_le.mp hx with ⟨h1, h2⟩; nlinarith
  have hz2 : p.z ^ 2 ≤ 81 := by
    rcases abs_le.mp hz with ⟨h1, h2⟩; nlinarith
  rcases ht.2 with hfar | htz
  · rcases le_or_lt (625 / 2) (t.x ^ 2) with hbig | hsmall
    · have := sep_of_sq_large t.x p.x hbig hx2
      unfold distSq
      nlinarith [sq_nonneg (p.z - t.z)]
    · have hbz : 625 / 2 ≤ t.z ^ 2 := by nlinarith
      have := sep_of_sq_large t.z p.z hbz hz2
      unfold distSq
      nlinarith [sq_nonneg (p.x - t.x)]
  · have h1 : |p.z| ≤ 9 := hz
    rcases abs_le.mp h1 with ⟨_, h3⟩
    unfold distSq
    nlinarith [sq_nonneg (p.x - t.x)]

/-- The interior clamps keep the position inside the closed inner square. -/
theorem insideAdjust_mem (c : Vec2) (hc : inHouse c) :
    |(insideAdjust c).x| ≤ 9 ∧ |(insideAdjust c).z| ≤ 9 := by
  obtain ⟨⟨hx1, hx2⟩, hz1, hz2⟩ := hc
  unfold insideAdjust
  dsimp only
  split_ifs <;>
    exact ⟨abs_le.mpr ⟨by linarith, by linarith⟩, abs_le.mpr ⟨by linarith, by linarith⟩⟩

/-- The exterior clamps change each coordinate either not at all or to one
of the wall offsets of magnitude 10.3. -/
theorem outsideAdjust_coords (c : Vec2) :
    ((outsideAdjust c).x = c.x ∨ (outsideAdjust c).x = -10.3 ∨ (outsideAdjust c).x = 10.3) ∧
    ((outsideAdjust c).z = c.z ∨ (outsideAdjust c).z = -10.3 ∨ (outsideAdjust c).z = 10.3) := by
  unfold outsideAdjust
  split_ifs <;> simp

/-- Inside the house every exterior wall-band condition fails, so the
exterior clamp is the identity there. -/
theorem outsideAdjust_of_inHouse (c : Vec2) (hc : inHouse c) :
    outsideAdjust c = c := by
  obtain ⟨⟨hx1, hx2⟩, hz1, hz2⟩ := hc
  have n1 : ¬(c.z < -9.7 ∧ -10.3 < c.z) := by rintro ⟨a, -⟩; linarith
  have n2 : ¬(9.7 < c.z ∧ c.z < 10.3) := by rintro ⟨a, -⟩; linarith
  have n3 : ¬(c.x < -9.7 ∧ -10.3 < c.x) := by rintro ⟨a, -⟩; linarith
  have n4 : ¬(9.7 < c.x ∧ c.x < 10.3) := by rintro ⟨a, -⟩; linarith
  unfold outsideAdjust
  split_ifs <;> rfl

/-- C5: if, for a pre-move position outside the house, the clamped
candidate position lies within the collision radius of some tree, the
whole move is rejected: the step returns exactly the pre-move position,
with no axis-sliding component.  The trees are assumed to satisfy the
placement constraint of `createTrees`, which the source establishes by
rejection sampling. -/
theorem tree_collision_rejects_whole_move
    (trees : List Vec2) (prev disp : Vec2)
    (hT : ∀ t ∈ trees, validTreePos t)
    (_hprev : ¬ inHouse prev)
    (hcol : collidesTree trees (outsideAdjust (candidatePos prev disp))) :
    movePlayer trees prev disp = prev := by
  unfold movePlayer
  by_cases hc : inHouse (candidatePos prev disp)
  · exfalso
    rw [outsideAdjust_of_inHouse _ hc] at hcol
    obtain ⟨t, ht, hlt⟩ := hcol
    have hfar := validTree_far_from_house t (candidatePos prev disp) (hT t ht)
      (abs_le.mpr ⟨hc.1.1, hc.1.2⟩) (abs_le.mpr ⟨hc.2.1, hc.2.2⟩)
    linarith
  · simp only [if_neg hc, if_pos hcol]

/-- C6: a locomotion step started strictly inside the world bounds and
outside every tree radius ends within the world bounds and outside every
tree radius, for every displacement.  Trees satisfy the placement
constraint of `createTrees`. -/
theorem movePlayer_preserves_safety
    (trees : List Vec2) (prev disp : Vec2)
    (hT : ∀ t ∈ trees, validTreePos t)
    (hBx : |prev.x| < 50) (hBz : |prev.z| < 50)
    (hF : ∀ t ∈ trees, 1.44 ≤ distSq prev t) :
    |(movePlayer trees prev disp).x| ≤ 50 ∧ |(movePlayer trees prev disp).z| ≤ 50 ∧
      ∀ t ∈ trees, 1.44 ≤ distSq (movePlayer trees prev disp) t := by
  unfold movePlayer
  have hcx := clampCoord_mem (-50) 50 (prev.x + disp.x) (by norm_num)
  have hcz := clampCoord_mem (-50) 50 (prev.z + disp.z) (by norm_num)
  by_cases hc : inHouse (candidatePos prev disp)
  · simp only [if_pos hc]
    obtain ⟨hmx, hmz⟩ := insideAdjust_mem _ hc
    refine ⟨by rcases abs_le.mp hmx with ⟨a, b⟩; exact abs_le.mpr ⟨by linarith, by linarith⟩,
            by rcases abs_le.mp hmz with ⟨a, b⟩; exact abs_le.mpr ⟨by linarith, by linarith⟩,
            fun t ht => validTree_far_from_house t _ (hT t ht) hmx hmz⟩
  · simp only [if_neg hc]
    by_cases hcol : collidesTree trees (outsideAdjust (candidatePos prev disp))
    · simp only [if_pos hcol]
      exact ⟨le_of_lt hBx, le_of_lt hBz, hF⟩
    · simp only [if_neg hcol]
      obtain ⟨hx, hz⟩ := outsideAdjust_coords (candidatePos prev disp)
      refine ⟨?_, ?_, fun t ht => ?_⟩
      · rcases hx with h | h | h <;> rw [h] <;>
          first
          | exact abs_le.mpr ⟨by simpa [candidatePos] using hcx.1,
              by simpa [candidatePos] using hcx.2⟩
          | (rw [abs_le]; constructor <;> norm_num)
      · rcases hz with h | h | h <;> rw [h] <;>
          first
          | exact abs_le.mpr ⟨by simpa [candidatePos] using hcz.1,
              by simpa [candidatePos] using hcz.2⟩
          | (rw [abs_le]; constructor <;> norm_num)
      · by_contra hlt
        exact hcol ⟨t, ht, by linarith⟩

/-- Witness for C5: a valid tree at (30, 30), avatar at (30, 28), step of
(0, 1) toward the tree; the step is rejected and returns the pre-move
position. -/
theorem tree_collision_rejects_whole_move_witness :
    movePlayer [⟨30, 30⟩] ⟨30, 28⟩ ⟨0, 1⟩ = (⟨30, 28⟩ : Vec2) :=
  tree_collision_rejects_whole_move [⟨30, 30⟩] ⟨30, 28⟩ ⟨0, 1⟩
    (by intro t ht
        simp only [List.mem_singleton] at ht
        subst ht
        exact ⟨Or.inl (by norm_num), Or.inl (by norm_num)⟩)
    (by norm_num [inHouse])
    ⟨⟨30, 30⟩, by simp, by norm_num [outsideAdjust, candidatePos, clampCoord, distSq]⟩

/-- Witness for C6: from the outdoor spawn position (0, 20) with a valid
tree at (30, 30), one step of displacement (0, 1) lands within bounds and
outside the tree radius. -/
theorem movePlayer_preserves_safety_witness :
    |(movePlayer [⟨30, 30⟩] ⟨0, 20⟩ ⟨0, 1⟩).x| ≤ 50 ∧
      |(movePlayer [⟨30, 30⟩] ⟨0, 20⟩ ⟨0, 1⟩).z| ≤ 50 ∧
      ∀ t ∈ [(⟨30, 30⟩ : Vec2)], 1.44 ≤ distSq (movePlayer [⟨30, 30⟩] ⟨0, 20⟩ ⟨0, 1⟩) t :=
  movePlayer_preserves_safety [⟨30, 30⟩] ⟨0, 20⟩ ⟨0, 1⟩
    (by intro t ht
        simp only [List.mem_singleton] at ht
        subst ht
        exact ⟨Or.inl (by norm_num), Or.inl (by norm_num)⟩)
    (by norm_num) (by norm_num)
    (by intro t ht
        simp only [List.mem_singleton] at ht
        subst ht
        norm_num [distSq])

/-! ## Terminal session state, conversational client and image poller
(main.js: state lines 610-632, sendQuery 674-735, addMessageToLog 737-743,
openTerminalUi 746-761, closeTerminalUi 763-775, requestNewImage 1611-1623,
checkForImages 1625-1679, loadImageToDisplay 1681-1727). -/

/-- One line of the displayed terminal log.  `addMessageToLog(sender, text)`
appends the DOM paragraph `sender ++ ": " ++ text`; the pair keeps the two
fields separate so that labels can be counted. -/
structure LogEntry where
  sender : String
  text : String
deriving DecidableEq, Repr

/-- Role tag of a persisted history entry. -/
inductive Role
| user
| assistant
deriving DecidableEq, Repr

/-- Content of a persisted history entry: plain string for user turns,
a list of text blocks (the Anthropic structure
`[{ type: "text", text }]`) for assistant turns. -/
inductive Content
| str (s : String)
| blocks (texts : List String)
deriving DecidableEq, Repr

/-- A persisted history turn `{ role, content }`. -/
structure Msg where
  role : Role
  content : Content
deriving DecidableEq, Repr

/-- The user turn pushed by sendQuery (main.js 681). -/
def userMsg (q : String) : Msg := ⟨Role.user, Content.str q⟩

/-- The assistant turn pushed by sendQuery on success (main.js 719). -/
def assistantMsg (r : String) : Msg := ⟨Role.assistant, Content.blocks [r]⟩

/-- The mutable globals touched by the terminal session and image poller.
Timestamps are milliseconds as integers (Date.now values). -/
structure TermState where
  isTerminalOpen : Bool
  interactionType : String
  messageHistory : List Msg
  log : List LogEntry
  terminalInput : String
  terminalStatusText : String
  lastCheckedImageTime : ℤ
  uiVisible : Bool
  mouseLocked : Bool
deriving DecidableEq, Repr

/-- JS falsiness of `queryText.trim()` (main.js 675): the string is blank
when every character is whitespace (in particular when it is empty). -/
def isBlank (s : String) : Bool := s.data.all Char.isWhitespace

/-- String prefix test, the model of `String.prototype.startsWith`. -/
def strStarts (s pre : String) : Bool := pre.data.isPrefixOf s.data

/-- History cap (main.js 683-685): when more than 10 entries are retained,
keep only the last 10 (`messageHistory.slice(-10)`). -/
def capHistory (h : List Msg) : List Msg :=
  if 10 < h.length then h.drop (h.length - 10) else h

/-- Placeholder removal (main.js 703-706): drop the last displayed line
when it is the pending `AI: Processing...` placeholder.  The source tests
`textContent.startsWith("AI: Processing...")` on `sender ++ ": " ++ text`,
which for the senders used by the program is equivalent to the sender
being `AI` and the text starting with `Processing...`. -/
def removeProcessingPlaceholder (l : List LogEntry) : List LogEntry :=
  match l.getLast? with
  | some e => if e.sender = "AI" ∧ strStarts e.text "Processing..." then l.dropLast else l
  | none => l

/-- The body of one `/api/query` request (main.js 691-700). -/
structure QueryRequest where
  query : String
  history : List Msg
deriving DecidableEq, Repr

/-- Resolution of the query request, supplied as a parameter because the
network is external: a 2xx response carrying a response text, a non-2xx
status (the fetch promise resolves, so the placeholder-removal lines run
before the error is thrown), or a network error (the fetch promise
rejects, so the placeholder-removal lines are skipped). -/
inductive QueryOutcome
| success (resp : String)
| httpErr (msg : String)
| netErr (msg : String)
deriving DecidableEq, Repr

/-- `sendQuery` (main.js 674-735): blank input is a no-op; otherwise the
user line is logged, the input cleared, the user turn pushed and the
history capped, one request is issued carrying the capped history minus
its last element (`messageHistory.slice(0, -1)`), the pending placeholder
is logged, and the outcome is applied as in the source.  Returns the new
state and the list of issued requests. -/
def sendQuery (st : TermState) (q : String) (out : QueryOutcome) :
    TermState × List QueryRequest :=
  if isBlank q then (st, [])
  else
    let log1 := st.log ++ [⟨"You", q⟩]
    let hist1 := capHistory (st.messageHistory ++ [userMsg q])
    let req : QueryRequest := ⟨q, hist1.dropLast⟩
    let log2 := log1 ++ [⟨"AI", "Processing..."⟩]
    match out with
    | QueryOutcome.netErr m =>
        let st2 : TermState :=
          { st with
            log := log2 ++ [⟨"Error", m⟩],
            messageHistory := hist1, terminalInput := "" }
        (st2, [req])
    | QueryOutcome.httpErr m =>
        let st2 : TermState :=
          { st with
            log := removeProcessingPlaceholder log2 ++ [⟨"Error", m⟩],
            messageHistory := hist1, terminalInput := "" }
        (st2, [req])
    | QueryOutcome.success r =>
        let st2 : TermState :=
          { st with
            log := removeProcessingPlaceholder log2 ++ [⟨"AI", r⟩],
            messageHistory := hist1 ++ [assistantMsg r], terminalInput := "" }
        (st2, [req])

/-- `openTerminalUi` (main.js 746-761): a no-op when the terminal is
already open; otherwise shows the panel, clears log and history, issues
the status fetch (whose synchronous part sets the connecting banner),
clears and focuses the input, and releases the pointer lock.  The second
component counts issued `/api/status` requests. -/
def openTerminalUi (st : TermState) : TermState × Nat :=
  if st.isTerminalOpen then (st, 0)
  else
    let st2 : TermState :=
      { st with
        isTerminalOpen := true, uiVisible := true, log := [],
        messageHistory := [],
        terminalStatusText := "Connecting to MCP Backend...",
        terminalInput := "", mouseLocked := false }
    (st2, 1)

/-- `checkForImages` (main.js 1625-1679), restricted to its synchronous
request decision: a no-op unless at least 10000 ms have elapsed since the
last check; on a due tick it records the poll time and issues one
`/latest-image` request.  The second component counts issued gallery
requests. -/
def checkForImages (st : TermState) (now : ℤ) : TermState × Nat :=
  if now - st.lastCheckedImageTime < 10000 then (st, 0)
  else ({ st with lastCheckedImageTime := now }, 1)

/-- `requestNewImage` (main.js 1611-1623): zero the last-poll timestamp to
bypass the time check, run `checkForImages`, and note the refresh in the
log when the terminal is open. -/
def requestNewImage (st : TermState) (now : ℤ) : TermState × Nat :=
  let st1 := { st with lastCheckedImageTime := 0 }
  let r := checkForImages st1 now
  let st2 : TermState :=
    if r.1.isTerminalOpen then
      { r.1 with
        log := r.1.log ++
          [⟨"System", "Checking for available images in the gallery..."⟩] }
    else r.1
  (st2, r.2)

/-- `closeTerminalUi` (main.js 763-775): a no-op when the terminal is not
open; otherwise hides the panel, forces an image refresh when the session
kind was the TV, and resets the interaction type.  The second component
counts issued gallery requests. -/
def closeTerminalUi (st : TermState) (now : ℤ) : TermState × Nat :=
  if st.isTerminalOpen = false then (st, 0)
  else
    let st1 := { st with isTerminalOpen := false, uiVisible := false }
    let r := if st1.interactionType = "tv" then requestNewImage st1 now else (st1, 0)
    ({ r.1 with interactionType := "" }, r.2)

/-- Fold of `sendQuery` over a sequence of exchanges (text and outcome),
keeping only the state. -/
def runExchanges (st : TermState) (es : List (String × QueryOutcome)) : TermState :=
  es.foldl (fun s e => (sendQuery s e.1 e.2).1) st

/-- The turn sequence an exchange would retain with the cap removed: one
user turn for every non-blank submit, plus the assistant turn on success. -/
def uncappedStep (h : List Msg) (e : String × QueryOutcome) : List Msg :=
  if isBlank e.1 then h
  else
    match e.2 with
    | QueryOutcome.success r => h ++ [userMsg e.1] ++ [assistantMsg r]
    | QueryOutcome.httpErr _ => h ++ [userMsg e.1]
    | QueryOutcome.netErr _ => h ++ [userMsg e.1]

/-- All turns retained by a sequence of exchanges with the cap removed. -/
def uncappedHistory (h : List Msg) (es : List (String × QueryOutcome)) : List Msg :=
  es.foldl uncappedStep h

/-! ## Fixture selection on commit (main.js, handleKeyDown, lines 778-822) -/

/-- A 3D point; `player.position.distanceTo(...)` is a 3D distance, so the
proximity flags depend on all three coordinates. -/
structure Vec3 where
  x : ℚ
  y : ℚ
  zc : ℚ
deriving DecidableEq, Repr

/-- Squared 3D distance. -/
def dist3Sq (p q : Vec3) : ℚ :=
  (p.x - q.x) ^ 2 + (p.y - q.y) ^ 2 + (p.zc - q.zc) ^ 2

/-- Computer fixture position (main.js 1538: `computer.position.set(-7, 1.3, 7)`). -/
def computerPos : Vec3 := ⟨-7, 1.3, 7⟩

/-- Television fixture position (main.js 1503: `tv.position.set(0, 2, 4)`). -/
def tvPos : Vec3 := ⟨0, 2, 4⟩

/-- `playerNearComputer` (main.js 1000): distance to the computer below
`INTERACTION_DISTANCE = 3.5`, squared threshold 12.25. -/
def playerNearComputerAt (p : Vec3) : Bool := decide (dist3Sq p computerPos < 12.25)

/-- `playerNearTV` (main.js 1001): distance to the television below 3.5. -/
def playerNearTVAt (p : Vec3) : Bool := decide (dist3Sq p tvPos < 12.25)

/-- The interactable fixtures that the commit key can select. -/
inductive Fixture
| computer
| tv
| door
deriving DecidableEq, Repr

/-- The Enter-commit selection (main.js 786-794, the branch taken when no
terminal is open): the if/else-if chain over the stored proximity flags,
in source order computer, then TV, then door; distances are never
consulted here. -/
def commitCandidate (nearComputer nearTV nearDoor : Bool) : Option Fixture :=
  if nearComputer then some Fixture.computer
  else if nearTV then some Fixture.tv
  else if nearDoor then some Fixture.door
  else none

/-- Whether a given fixture is flagged in range. -/
def fixtureInRange (nearComputer nearTV nearDoor : Bool) : Fixture → Bool
  | Fixture.computer => nearComputer
  | Fixture.tv => nearTV
  | Fixture.door => nearDoor

/-- Specification-side definition, written from the words of the spec
tie-break rule: the first eligible fixture in the fixed priority order
Computer > Television > Door. -/
def specPriorityCandidate (nearComputer nearTV nearDoor : Bool) : Option Fixture :=
  ([Fixture.computer, Fixture.tv, Fixture.door].filter
    (fixtureInRange nearComputer nearTV nearDoor)).head?

/-- Number of fixtures flagged in range. -/
def numInRange (nearComputer nearTV nearDoor : Bool) : Nat :=
  nearComputer.toNat + nearTV.toNat + nearDoor.toNat

/-! ## Image display swap (main.js, loadImageToDisplay, lines 1681-1727) -/

/-- The material on the TV screen mesh: either a solid color fill or a
texture keyed by the address it was loaded from. -/
inductive Material
| colorFill (c : Nat)
| textureOf (url : String)
deriving DecidableEq, Repr

/-- The display-related globals: the texture currently referenced by
`currentImageTexture` (keyed by its source address) and the material on
`imageDisplay`. -/
structure DisplayState where
  currentImageTexture : Option String
  displayMaterial : Material
deriving DecidableEq, Repr

/-- Whether the asynchronous texture load succeeds; supplied as a
parameter because the asset pipeline is external. -/
inductive LoadOutcome
| ok
| failed
deriving DecidableEq, Repr

/-- Gallery base address (main.js 603). -/
def IMAGE_SERVER_URL : String := "http://localhost:3002"

/-- Address resolution (main.js 1687-1698): a non-empty identifier that
does not start with `http` is prefixed with the gallery base address,
inserting a slash when missing. -/
def fullImageUrl (imageUrl : String) : String :=
  if imageUrl ≠ "" ∧ strStarts imageUrl "http" = false then
    (if strStarts imageUrl "/" then IMAGE_SERVER_URL ++ imageUrl
     else IMAGE_SERVER_URL ++ "/" ++ imageUrl)
  else imageUrl

/-- Side effects of one `loadImageToDisplay` call: which texture resources
were disposed and how many texture loads were started. -/
structure LoadEffects where
  disposedTextures : List String
  loadsStarted : Nat
deriving DecidableEq, Repr

/-- `loadImageToDisplay` (main.js 1681-1727): dispose the previous texture
if any (unconditionally, before the load), resolve the address, and start
one texture load; on success the loaded texture becomes current and is
put on the display, on failure the display falls back to the solid
`0x333333` fill (and the stale texture reference is left in place). -/
def loadImageToDisplay (st : DisplayState) (imageUrl : String) (out : LoadOutcome) :
    DisplayState × LoadEffects :=
  let disposed := st.currentImageTexture.toList
  let url := fullImageUrl imageUrl
  match out with
  | LoadOutcome.ok => (⟨some url, Material.textureOf url⟩, ⟨disposed, 1⟩)
  | LoadOutcome.failed =>
      (⟨st.currentImageTexture, Material.colorFill 0x333333⟩, ⟨disposed, 1⟩)

/-- A concrete open-session state used by the concrete counterexamples. -/
def termState0 : TermState :=
  { isTerminalOpen := true, interactionType := "computer", messageHistory := [],
    log := [], terminalInput := "", terminalStatusText := "MCP TERMINAL",
    lastCheckedImageTime := 0, uiVisible := true, mouseLocked := false }

/-- Number of displayed lines carrying a given sender label. -/
def countSender (s : String) (l : List LogEntry) : Nat :=
  (l.filter (fun e => e.sender = s)).length

/-! Helper lemmas about the session client. -/

theorem removeProcessingPlaceholder_concat (l : List LogEntry) :
    removeProcessingPlaceholder (l ++ [⟨"AI", "Processing..."⟩]) = l := by
  unfold removeProcessingPlaceholder
  rw [List.getLast?_concat]
  dsimp only
  rw [if_pos ⟨rfl, by decide⟩]
  exact List.dropLast_concat

theorem capHistory_length (h : List Msg) : (capHistory h).length ≤ 10 := by
  unfold capHistory
  split_ifs with hl
  · rw [List.length_drop]
    omega
  · omega

theorem capHistory_suffix (h : List Msg) : capHistory h <:+ h := by
  unfold capHistory
  split_ifs
  · exact List.drop_suffix _ _
  · exact List.suffix_refl _

theorem suffix_append_compat {α : Type} {a b : List α} (l : List α)
    (h : a <:+ b) : a ++ l <:+ b ++ l := by
  obtain ⟨t, rfl⟩ := h
  exact ⟨t, (List.append_assoc t a l).symm⟩

/-- The history effect of one exchange: suffix of the uncapped turn list,
and at most 11 entries retained. -/
theorem sendQuery_history_step (st : TermState) (q : String) (out : QueryOutcome)
    (H : List Msg) (hs : st.messageHistory <:+ H)
    (hl : st.messageHistory.length ≤ 11) :
    (sendQuery st q out).1.messageHistory <:+ uncappedStep H (q, out) ∧
      (sendQuery st q out).1.messageHistory.length ≤ 11 := by
  unfold sendQuery uncappedStep
  by_cases hb : isBlank q
  · simp only [hb, if_true]
    exact ⟨hs, hl⟩
  · simp only [hb, if_false, Bool.false_eq_true]
    have hcap : capHistory (st.messageHistory ++ [userMsg q]) <:+ H ++ [userMsg q] :=
      (capHistory_suffix _).trans (suffix_append_compat _ hs)
    have hlen := capHistory_length (st.messageHistory ++ [userMsg q])
    cases out with
    | success r =>
        refine ⟨suffix_append_compat _ hcap, ?_⟩
        rw [List.length_append]
        simpa using Nat.add_le_add hlen (le_refl 1)
    | httpErr m => exact ⟨hcap, by dsimp only; omega⟩
    | netErr m => exact ⟨hcap, by dsimp only; omega⟩

theorem runExchanges_invariant (es : List (String × QueryOutcome)) :
    ∀ (st : TermState) (H : List Msg), st.messageHistory <:+ H →
      st.messageHistory.length ≤ 11 →
      (runExchanges st es).messageHistory <:+ uncappedHistory H es ∧
        (runExchanges st es).messageHistory.length ≤ 11 := by
  induction es with
  | nil => intro st H hs hl; exact ⟨hs, hl⟩
  | cons e tl ih =>
      intro st H hs hl
      obtain ⟨h1, h2⟩ := sendQuery_history_step st e.1 e.2 H hs hl
      exact ih _ _ h1 h2

/-- C1 counterexample: after a failed exchange the persisted history has
grown by the user turn, refuting the claim that nothing is added to it
for a failed exchange. -/
theorem sendQuery_failure_mutates_history_cex :
    (sendQuery termState0 "hello" (QueryOutcome.netErr "network down")).1.messageHistory ≠
      termState0.messageHistory := by decide

/-- C1 (amended): a failed non-blank submit appends exactly one
user-labeled line and exactly one error-labeled line to the displayed log
(on a network error the pending placeholder additionally survives, since
the removal lines are skipped when the fetch rejects), and the persisted
history gains exactly the capped user turn and no assistant turn. -/
theorem sendQuery_failure_log_history (st : TermState) (q m : String)
    (hq : isBlank q = false) :
    ((sendQuery st q (QueryOutcome.netErr m)).1.log =
        st.log ++ [⟨"You", q⟩, ⟨"AI", "Processing..."⟩, ⟨"Error", m⟩]) ∧
    ((sendQuery st q (QueryOutcome.httpErr m)).1.log =
        st.log ++ [⟨"You", q⟩, ⟨"Error", m⟩]) ∧
    countSender "You" [⟨"You", q⟩, ⟨"AI", "Processing..."⟩, ⟨"Error", m⟩] = 1 ∧
    countSender "Error" [⟨"You", q⟩, ⟨"AI", "Processing..."⟩, ⟨"Error", m⟩] = 1 ∧
    countSender "You" [(⟨"You", q⟩ : LogEntry), ⟨"Error", m⟩] = 1 ∧
    countSender "Error" [(⟨"You", q⟩ : LogEntry), ⟨"Error", m⟩] = 1 ∧
    ((sendQuery st q (QueryOutcome.netErr m)).1.messageHistory =
        capHistory (st.messageHistory ++ [userMsg q])) ∧
    ((sendQuery st q (QueryOutcome.httpErr m)).1.messageHistory =
        capHistory (st.messageHistory ++ [userMsg q])) := by
  refine ⟨?_, ?_, ?_, ?_, ?_, ?_, ?_, ?_⟩
  · unfold sendQuery
    simp [hq]
  · unfold sendQuery
    simp only [hq, Bool.false_eq_true, if_false]
    have h2 : st.log ++ [(⟨"You", q⟩ : LogEntry)] ++ [(⟨"AI", "Processing..."⟩ : LogEntry)] =
        (st.log ++ [⟨"You", q⟩]) ++ [⟨"AI", "Processing..."⟩] := by simp
    rw [h2, removeProcessingPlaceholder_concat]
    simp
  · rfl
  · rfl
  · rfl
  · rfl
  · unfold sendQuery
    simp only [hq, Bool.false_eq_true, if_false]
  · unfold sendQuery
    simp only [hq, Bool.false_eq_true, if_false]

/-- Witness for the amended C1 at a concrete failing exchange. -/
theorem sendQuery_failure_log_history_witness :
    ((sendQuery termState0 "hello" (QueryOutcome.netErr "boom")).1.log =
        termState0.log ++ [⟨"You", "hello"⟩, ⟨"AI", "Processing..."⟩, ⟨"Error", "boom"⟩]) ∧
    ((sendQuery termState0 "hello" (QueryOutcome.httpErr "boom")).1.log =
        termState0.log ++ [⟨"You", "hello"⟩, ⟨"Error", "boom"⟩]) ∧
    countSender "You" [⟨"You", "hello"⟩, ⟨"AI", "Processing..."⟩, ⟨"Error", "boom"⟩] = 1 ∧
    countSender "Error" [⟨"You", "hello"⟩, ⟨"AI", "Processing..."⟩, ⟨"Error", "boom"⟩] = 1 ∧
    countSender "You" [(⟨"You", "hello"⟩ : LogEntry), ⟨"Error", "boom"⟩] = 1 ∧
    countSender "Error" [(⟨"You", "hello"⟩ : LogEntry), ⟨"Error", "boom"⟩] = 1 ∧
    ((sendQuery termState0 "hello" (QueryOutcome.netErr "boom")).1.messageHistory =
        capHistory (termState0.messageHistory ++ [userMsg "hello"])) ∧
    ((sendQuery termState0 "hello" (QueryOutcome.httpErr "boom")).1.messageHistory =
        capHistory (termState0.messageHistory ++ [userMsg "hello"])) :=
  sendQuery_failure_log_history termState0 "hello" "boom" (by decide)

/-- C2 counterexample: the issued request's history field is the history
before the new user turn, not the prior turns plus the new user turn as
the claim states. -/
theorem sendQuery_request_history_cex :
    (sendQuery termState0 "hello" (QueryOutcome.success "hi")).2 ≠
      [⟨"hello", termState0.messageHistory ++ [userMsg "hello"]⟩] := by decide

/-- C2 (amended): every non-blank submit issues exactly one request, whose
history field is the capped persisted history minus its last element,
i.e. the prior turns excluding the just-appended user turn; the query text
travels in the separate query field, and the pending placeholder never
appears since it is never part of the persisted history. -/
theorem sendQuery_request_history (st : TermState) (q : String) (out : QueryOutcome)
    (hq : isBlank q = false) :
    (sendQuery st q out).2 =
      [⟨q, (capHistory (st.messageHistory ++ [userMsg q])).dropLast⟩] := by
  unfold sendQuery
  simp only [hq, Bool.false_eq_true, if_false]
  cases out <;> rfl

/-- Witness for the amended C2 at a concrete exchange. -/
theorem sendQuery_request_history_witness :
    (sendQuery termState0 "hello" (QueryOutcome.success "hi")).2 =
      [⟨"hello", (capHistory (termState0.messageHistory ++ [userMsg "hello"])).dropLast⟩] :=
  sendQuery_request_history termState0 "hello" (QueryOutcome.success "hi") (by decide)

/-- C3 counterexample: six successful exchanges from a fresh session leave
11 persisted turns, exceeding the cap of 10 that the truncation enforces,
because the assistant turn is appended after the cap is applied. -/
theorem history_cap_exceeded_cex :
    ¬ ((runExchanges termState0
        [("q1", QueryOutcome.success "r1"), ("q2", QueryOutcome.success "r2"),
         ("q3", QueryOutcome.success "r3"), ("q4", QueryOutcome.success "r4"),
         ("q5", QueryOutcome.success "r5"), ("q6", QueryOutcome.success "r6")]
       ).messageHistory.length ≤ 10) := by decide

/-- C3 (amended): after any number of exchanges from a freshly opened
session the persisted history holds at most 11 turns (the cap of 10 is
enforced when the user turn is pushed, and a successful exchange then
appends one assistant turn), and the retained history is always a suffix
of the uncapped turn sequence, so the oldest entries are the ones
discarded. -/
theorem history_cap_oldest_first (st : TermState) (es : List (String × QueryOutcome))
    (h0 : st.messageHistory = []) :
    (runExchanges st es).messageHistory.length ≤ 11 ∧
      (runExchanges st es).messageHistory <:+ uncappedHistory [] es := by
  have h := runExchanges_invariant es st [] (by rw [h0]) (by rw [h0]; simp)
  exact ⟨h.2, h.1⟩

/-- Witness for the amended C3 at a concrete exchange list. -/
theorem history_cap_oldest_first_witness :
    (runExchanges termState0 [("q1", QueryOutcome.netErr "x")]).messageHistory.length ≤ 11 ∧
      (runExchanges termState0 [("q1", QueryOutcome.netErr "x")]).messageHistory <:+
        uncappedHistory [] [("q1", QueryOutcome.netErr "x")] :=
  history_cap_oldest_first termState0 [("q1", QueryOutcome.netErr "x")] rfl

/-- C4: at every avatar position, with any state of the stored door flag,
when at least two fixtures are flagged in range the Enter-commit selection
equals the top eligible fixture of the fixed priority order
Computer > Television > Door; the selection function consults only the
flags, never the distances, so relative distance and arrival order are
irrelevant. -/
theorem commit_priority_order (p : Vec3) (nearDoor : Bool)
    (h : 2 ≤ numInRange (playerNearComputerAt p) (playerNearTVAt p) nearDoor) :
    commitCandidate (playerNearComputerAt p) (playerNearTVAt p) nearDoor =
      specPriorityCandidate (playerNearComputerAt p) (playerNearTVAt p) nearDoor := by
  cases hc : playerNearComputerAt p <;> cases ht : playerNearTVAt p <;>
    cases nearDoor <;> rfl

/-- Witness for C4 at the position (0, 1.7, 4), which is in range of the
television, with the door flag also set. -/
theorem commit_priority_order_witness :
    2 ≤ numInRange (playerNearComputerAt ⟨0, 1.7, 4⟩) (playerNearTVAt ⟨0, 1.7, 4⟩) true ∧
      commitCandidate (playerNearComputerAt ⟨0, 1.7, 4⟩) (playerNearTVAt ⟨0, 1.7, 4⟩) true =
        specPriorityCandidate (playerNearComputerAt ⟨0, 1.7, 4⟩)
          (playerNearTVAt ⟨0, 1.7, 4⟩) true := by
  have h2 : playerNearTVAt ⟨0, 1.7, 4⟩ = true := by
    simp only [playerNearTVAt, dist3Sq, tvPos, decide_eq_true_eq]
    norm_num
  have hnum : 2 ≤ numInRange (playerNearComputerAt ⟨0, 1.7, 4⟩)
      (playerNearTVAt ⟨0, 1.7, 4⟩) true := by
    rw [h2]
    unfold numInRange
    cases playerNearComputerAt ⟨0, 1.7, 4⟩ <;> simp
  exact ⟨hnum, commit_priority_order ⟨0, 1.7, 4⟩ true hnum⟩

/-- C7: cancelling an open Tv session issues exactly one gallery poll with
the time check bypassed (whatever the last poll time was), and resets the
interaction kind to the empty marker; cancelling an open Computer session
issues no poll and also resets the kind.  The hypothesis `10000 ≤ now`
says the clock reads at least ten seconds past the epoch, which holds of
every Date.now value. -/
theorem close_session_poll (st : TermState) (now : ℤ)
    (hopen : st.isTerminalOpen = true) (hnow : 10000 ≤ now) :
    (st.interactionType = "tv" →
      (closeTerminalUi st now).2 = 1 ∧
        (closeTerminalUi st now).1.interactionType = "" ∧
        (closeTerminalUi st now).1.lastCheckedImageTime = now) ∧
    (st.interactionType = "computer" →
      (closeTerminalUi st now).2 = 0 ∧
        (closeTerminalUi st now).1.interactionType = "") := by
  constructor
  · intro htv
    unfold closeTerminalUi requestNewImage checkForImages
    simp only [hopen, htv]
    rw [if_neg (by omega : ¬ (now - (0 : ℤ) < 10000))]
    simp
  · intro hcomp
    unfold closeTerminalUi
    simp [hopen, hcomp]

/-- Witness for C7: closing a concrete open Tv session and the concrete
open Computer session `termState0` at time 20000. -/
theorem close_session_poll_witness :
    ((closeTerminalUi { termState0 with interactionType := "tv" } 20000).2 = 1 ∧
      (closeTerminalUi { termState0 with interactionType := "tv" } 20000).1.interactionType = "" ∧
      (closeTerminalUi { termState0 with interactionType := "tv" } 20000).1.lastCheckedImageTime
        = 20000) ∧
    ((closeTerminalUi termState0 20000).2 = 0 ∧
      (closeTerminalUi termState0 20000).1.interactionType = "") :=
  ⟨(close_session_poll { termState0 with interactionType := "tv" } 20000 rfl
      (by norm_num)).1 rfl,
   (close_session_poll termState0 20000 rfl (by norm_num)).2 rfl⟩

/-- C8: a tick within the minimum interval of the last poll is a complete
no-op; two ticks within one interval of each other issue at most one
gallery request; after force-invalidation (which zeroes the last-poll
timestamp) the next tick issues a request for every clock value at least
the interval past the epoch, whatever the previous last-poll time was. -/
theorem poller_tick_gate (st : TermState) (t1 t2 now : ℤ) :
    (now - st.lastCheckedImageTime < 10000 → checkForImages st now = (st, 0)) ∧
    (t1 ≤ t2 → t2 - t1 < 10000 →
      (checkForImages st t1).2 + (checkForImages (checkForImages st t1).1 t2).2 ≤ 1) ∧
    (10000 ≤ now → (requestNewImage st now).2 = 1) := by
  refine ⟨?_, ?_, ?_⟩
  · intro h
    unfold checkForImages
    rw [if_pos h]
  · intro h12 hlt
    unfold checkForImages
    split_ifs <;> simp_all
  · intro hnow
    unfold requestNewImage checkForImages
    dsimp only
    rw [if_neg (by omega : ¬ (now - (0 : ℤ) < 10000))]

/-- Witness for C8 at concrete times: a tick at 5000 after a poll at 0 is
a no-op, ticks at 20000 and 25000 issue at most one request, and a forced
refresh at 20000 issues one. -/
theorem poller_tick_gate_witness :
    (checkForImages { termState0 with lastCheckedImageTime := 0 } 5000 =
      ({ termState0 with lastCheckedImageTime := 0 }, 0)) ∧
    ((checkForImages { termState0 with lastCheckedImageTime := 0 } 20000).2 +
      (checkForImages
        (checkForImages { termState0 with lastCheckedImageTime := 0 } 20000).1 25000).2 ≤ 1) ∧
    ((requestNewImage { termState0 with lastCheckedImageTime := 999999 } 20000).2 = 1) :=
  ⟨(poller_tick_gate { termState0 with lastCheckedImageTime := 0 } 0 0 5000).1 (by norm_num),
   (poller_tick_gate { termState0 with lastCheckedImageTime := 0 } 20000 25000 0).2.1
     (by norm_num) (by norm_num),
   (poller_tick_gate { termState0 with lastCheckedImageTime := 999999 } 0 0 20000).2.2
     (by norm_num)⟩

/-- C9 counterexample: with the display already showing the texture loaded
from the identifier `a.png`, a poll resolving the same identifier still
starts a texture load, refuting the claim that a load happens only when
the identifier differs from the current one. -/
theorem loadImage_no_dedup_cex :
    (loadImageToDisplay
        ⟨some (fullImageUrl "a.png"), Material.textureOf (fullImageUrl "a.png")⟩
        "a.png" LoadOutcome.ok).2.loadsStarted ≠ 0 := by decide

/-- C9 (amended): a resolved identifier is always loaded, without any
comparison against the currently displayed one; the previous texture
resource is disposed before the load starts (hence before the swap on
success, but also when the load will fail); on success the new texture
becomes current and is put on the display, and on failure the display is
set to the neutral solid-color placeholder. -/
theorem loadImage_behaviour (st : DisplayState) (u : String) :
    loadImageToDisplay st u LoadOutcome.ok =
      (⟨some (fullImageUrl u), Material.textureOf (fullImageUrl u)⟩,
       ⟨st.currentImageTexture.toList, 1⟩) ∧
    loadImageToDisplay st u LoadOutcome.failed =
      (⟨st.currentImageTexture, Material.colorFill 0x333333⟩,
       ⟨st.currentImageTexture.toList, 1⟩) :=
  ⟨rfl, rfl⟩

/-- C10: opening while already open is a complete no-op (same state, no
status request), and closing while not open is a complete no-op (same
state, no gallery poll). -/
theorem open_close_idempotent (st : TermState) (now : ℤ) :
    (st.isTerminalOpen = true → openTerminalUi st = (st, 0)) ∧
    (st.isTerminalOpen = false → closeTerminalUi st now = (st, 0)) := by
  constructor
  · intro h
    unfold openTerminalUi
    rw [if_pos h]
  · intro h
    unfold closeTerminalUi
    rw [if_pos h]

/-- Witness for C10 on concrete open and closed states. -/
theorem open_close_idempotent_witness :
    openTerminalUi termState0 = (termState0, 0) ∧
      closeTerminalUi { termState0 with isTerminalOpen := false } 0 =
        ({ termState0 with isTerminalOpen := false }, 0) :=
  ⟨(open_close_idempotent termState0 0).1 rfl,
   (open_close_idempotent { termState0 with isTerminalOpen := false } 0).2 rfl⟩

end MCPGame
